import Mathlib

/-!
Verification development for the CartoonGAN TF2 training script
(`src/tf2/train.py`).  The Python source is shallowly embedded: pure
computations become Lean functions over `Nat`/`Rat`, fallible library calls
become `Except PyError`, and the pretraining loop becomes an explicit state
machine.  Tensors are modelled at the level the claims need: flat lists of
rationals for loss computations, and height/width indexed pixel functions
for the image pipeline.
-/

set_option autoImplicit false

/-- Errors the Python runtime or the libraries used by `train.py` can raise:
matplotlib's grid-position `ValueError`, Python's `NameError` and
`AttributeError`, and TensorFlow's `InvalidArgumentError` from
`tf.image.random_crop` on undersized inputs. -/
inductive PyError where
  | valueError
  | nameError (missing : String)
  | attributeError (missing : String)
  | invalidArgument
  deriving DecidableEq, Repr

/-! ## Sampler grid layout (`Trainer._save_generated_images`, lines 94-113)

The Python computes
`num_rows = batch_size // num_images_per_row if batch_size >= num_images_per_row else 1`
and then calls `fig.add_subplot(num_rows, num_images_per_row, i + 1)` for
every `i in range(batch_size)`.  matplotlib requires the subplot position to
satisfy `1 <= pos <= num_rows * num_cols` and raises `ValueError` otherwise;
`add_subplot` below embeds that documented contract. -/

/-- Row count of the sample grid, exactly the conditional expression at
lines 98-100 of `train.py`. -/
def num_rows (batch_size num_images_per_row : ℕ) : ℕ :=
  if num_images_per_row ≤ batch_size then batch_size / num_images_per_row else 1

/-- One `fig.add_subplot(rows, cols, pos)` call: succeeds iff the position
is within the grid, raises `ValueError` otherwise (matplotlib's contract). -/
def add_subplot (rows cols pos : ℕ) : Except PyError Unit :=
  if 1 ≤ pos ∧ pos ≤ rows * cols then Except.ok () else Except.error PyError.valueError

/-- The `for i in range(batch_size)` loop at lines 104-107: place image `i`
at grid position `i + 1`, stopping at the first library error.  `i` is the
index of the next image, `n` the number of images still to place. -/
def render_images (rows cols : ℕ) (i : ℕ) : ℕ → Except PyError Unit
  | 0 => Except.ok ()
  | n + 1 =>
    match add_subplot rows cols (i + 1) with
    | Except.ok _ => render_images rows cols (i + 1) n
    | Except.error e => Except.error e

/-- Grid rendering performed by `Trainer._save_generated_images` for a batch
of `batch_size` images: compute the row count, then place every image. -/
def save_generated_images (batch_size num_images_per_row : ℕ) : Except PyError Unit :=
  render_images (num_rows batch_size num_images_per_row) num_images_per_row 0 batch_size

/-! ## Content loss (`Trainer.content_loss`, lines 133-143)

ImageBatches are modelled as flat lists of rationals; `mae` is
`tf.keras.losses.MeanAbsoluteError` (the mean of the elementwise absolute
differences).  The optional VGG feature extractor is an opaque function
`List ℚ → List ℚ`; `if self.vgg:` is the `Option` match (a Keras model is
truthy, `None` is falsy). -/

/-- Mean absolute error between two equally shaped tensors, flattened. -/
def mae (x y : List ℚ) : ℚ :=
  (((x.zip y).map (fun p => |p.1 - p.2|)).sum) / x.length

/-- Embedding of `Trainer.content_loss`: project both batches through the
feature extractor when one is configured, then return
`content_lambda * MeanAbsoluteError(input_content, generated_content)`. -/
def content_loss (vgg : Option (List ℚ → List ℚ)) (content_lambda : ℚ)
    (input_images generated_images : List ℚ) : ℚ :=
  match vgg with
  | some f => content_lambda * mae (f input_images) (f generated_images)
  | none => content_lambda * mae input_images generated_images

/-- Projection into feature space, written from the spec's words: when a
FeatureExtractor is configured both batches are first projected through it,
otherwise they are compared in pixel space. -/
def feature_projection (vgg : Option (List ℚ → List ℚ)) (t : List ℚ) : List ℚ :=
  match vgg with
  | some f => f t
  | none => t

/-- The spec's formula for content loss (§4.2): the configured content λ
times the mean absolute difference of the two batches, taken in feature
space when an extractor is configured and in pixel space otherwise. -/
def content_loss_spec (vgg : Option (List ℚ → List ℚ)) (content_lambda : ℚ)
    (x y : List ℚ) : ℚ :=
  content_lambda * mae (feature_projection vgg x) (feature_projection vgg y)

/-! ## Display rescaling (`np.clip(..., -1, 1) + 1) / 2`, lines 186-189 and 204-208) -/

/-- NumPy's `np.clip(x, lo, hi) = min(hi, max(lo, x))`, elementwise on one
scalar. -/
def np_clip (lo hi x : ℚ) : ℚ := min hi (max lo x)

/-- Elementwise clipping of a batch to `[-1, 1]`, as `np.clip(batch, -1, 1)`. -/
def clip_batch (t : List ℚ) : List ℚ := t.map (np_clip (-1) 1)

/-- The display rescaling applied before saving sample grids:
`(np.clip(batch, -1, 1) + 1) / 2`. -/
def rescale_for_display (t : List ℚ) : List ℚ :=
  t.map (fun v => (np_clip (-1) 1 v + 1) / 2)

/-! ### Helper lemmas -/

/-- The summed absolute differences of a list zipped with itself vanish. -/
lemma zip_self_abs_sum (t : List ℚ) :
    ((t.zip t).map (fun p => |p.1 - p.2|)).sum = 0 := by
  induction t with
  | nil => simp
  | cons a t ih => simp [ih]

/-- Mean absolute error of a tensor against itself is zero. -/
lemma mae_self (t : List ℚ) : mae t t = 0 := by
  simp [mae, zip_self_abs_sum]

/-! ## Image pipeline (`image_processing` inside `get_dataset`, lines 123-129)

`tf.io.read_file` plus `tf.image.decode_jpeg(x, channels=3)` yield a
3-channel `uint8` raster; we model that decoded raster directly as
`RawImage`, with pixels in `Fin 256` (the `uint8` range) over a `Fin 3`
channel index.  `tf.image.random_crop` draws random offsets and raises an
invalid-argument error when the image is smaller than the crop window; the
offsets are explicit parameters here.  `resize_image_with_crop_or_pad`
centrally crops or zero-pads each axis to the target extent.  Finally the
cast to `float32` followed by `/ 127.5 - 1` becomes a map into `ℚ`. -/

/-- A decoded 3-channel `uint8` image. -/
structure RawImage where
  height : ℕ
  width : ℕ
  pixel : ℕ → ℕ → Fin 3 → Fin 256

/-- A processed floating-point image, pixels in `ℚ`. -/
structure ProcImage where
  height : ℕ
  width : ℕ
  pixel : ℕ → ℕ → Fin 3 → ℚ

/-- Embedding of `tf.image.random_crop(x, (size, size, 3))` with crop offsets
`oh`, `ow`: fails loudly when either image extent is below the crop size. -/
def random_crop (size oh ow : ℕ) (img : RawImage) : Except PyError RawImage :=
  if size ≤ img.height ∧ size ≤ img.width then
    Except.ok ⟨size, size, fun i j c => img.pixel (oh + i) (ow + j) c⟩
  else
    Except.error PyError.invalidArgument

/-- Per-axis index mapping of central crop-or-pad: for target index `idx`,
return the source index read from, or `none` when `idx` falls in the
zero-padding region. -/
def crop_or_pad_axis (src tgt idx : ℕ) : Option ℕ :=
  if tgt ≤ src then
    some ((src - tgt) / 2 + idx)
  else if (tgt - src) / 2 ≤ idx ∧ idx < (tgt - src) / 2 + src then
    some (idx - (tgt - src) / 2)
  else
    none

/-- Embedding of `tf.image.resize_image_with_crop_or_pad(x, th, tw)`:
centrally crop or zero-pad each axis to the target extents. -/
def resize_image_with_crop_or_pad (th tw : ℕ) (img : RawImage) : RawImage where
  height := th
  width := tw
  pixel := fun i j c =>
    match crop_or_pad_axis img.height th i, crop_or_pad_axis img.width tw j with
    | some si, some sj => img.pixel si sj c
    | _, _ => 0

/-- The cast to `float32` and rescaling `x / 127.5 - 1` applied to one
`uint8` pixel. -/
def rescale_pixel (p : Fin 256) : ℚ := (p.val : ℚ) / 127.5 - 1

/-- Embedding of the `image_processing` closure (lines 123-129): random-crop
the decoded raster to `input_size`, apply the crop-or-pad safety net, then
cast and rescale every pixel into `[-1, 1]`. -/
def image_processing (input_size oh ow : ℕ) (img : RawImage) : Except PyError ProcImage :=
  match random_crop input_size oh ow img with
  | Except.error e => Except.error e
  | Except.ok x =>
    let x2 := resize_image_with_crop_or_pad input_size input_size x
    Except.ok ⟨x2.height, x2.width, fun i j c => rescale_pixel (x2.pixel i j c)⟩

/-! ## Dataset stream (`get_dataset`, lines 115-131)

`get_dataset` returns `ds.map(image_processing).shuffle(6000).repeat().batch(batch_size)`.
The infinite repeated stream is modelled by its `n`-th element: `repeat`
re-reads the (mapped, shuffled) file list cyclically, and the shuffle with
its 6000-item buffer emits the files in some data-dependent order — modelled
by an arbitrary index map `sh` reduced modulo the file count, which covers
every order TensorFlow can produce.  `crops n` supplies the random crop
offsets of the `n`-th draw.  A `none` element would be the end-of-data
signal; the batch stage drains `batch_size` consecutive elements. -/

/-- The `n`-th image emitted by the mapped, shuffled, repeated dataset. -/
def stream_elem (files : List RawImage) (input_size : ℕ) (sh : ℕ → ℕ)
    (crops : ℕ → ℕ × ℕ) (n : ℕ) : Option (Except PyError ProcImage) :=
  (files.get? (sh n % files.length)).map
    (fun f => image_processing input_size (crops n).1 (crops n).2 f)

/-- Drain `n` consecutive elements starting at index `start` into one batch,
propagating a processing error or an end-of-data signal. -/
def collect_batch (elems : ℕ → Option (Except PyError ProcImage)) :
    ℕ → ℕ → Option (Except PyError (List ProcImage))
  | _, 0 => some (Except.ok [])
  | start, n + 1 =>
    match elems start, collect_batch elems (start + 1) n with
    | some (Except.ok img), some (Except.ok rest) => some (Except.ok (img :: rest))
    | some (Except.error e), _ => some (Except.error e)
    | some (Except.ok _), some (Except.error e) => some (Except.error e)
    | some (Except.ok _), none => none
    | none, _ => none

/-- The `b`-th batch emitted by the pipeline built in `get_dataset`:
`none` would mean the stream terminated before the batch filled. -/
def stream_batch (files : List RawImage) (input_size batch_size : ℕ)
    (sh : ℕ → ℕ) (crops : ℕ → ℕ × ℕ) (b : ℕ) :
    Option (Except PyError (List ProcImage)) :=
  collect_batch (stream_elem files input_size sh crops) (batch_size * b) batch_size

/-! ## Pretraining loop (`Trainer.pretrain_generator`, lines 155-222)

The loop is embedded as a state machine.  Batches have an abstract type `α`
(the dataset is the opaque stream built above) and generator weights an
abstract type `γ`; `pretrain_step` (lines 145-153) mutates the weights as an
opaque update function `upd : γ → α → γ`.  `sample_draws b` is the `b`-th
batch produced by `dataset.take(...)` during sampling setup, `epoch_draws s`
the batch consumed at step `s` of the training loop's own iteration of the
dataset.  Saved artifacts are recorded in order; a reporting artifact also
records which retained batches (`real_batches`) it ran through the
generator.  Because the stream repeats indefinitely, `enumerate(dataset)`
never terminates and every materialized step belongs to epoch 0; the state
machine therefore tracks the steps of that first epoch. -/

/-- Configuration fields of `Trainer` that the pretraining loop reads. -/
structure PretrainConfig where
  disable_sampling : Bool
  sample_size : ℕ
  batch_size : ℕ
  pretrain_reporting_steps : ℕ
  pretrain_epochs : ℕ

/-- An image-grid artifact written into `result_dir`, tagged with the
retained batches a reporting artifact rendered through the generator. -/
inductive Artifact (α : Type) where
  | sampleImages
  | generatedAt (step : ℕ) (renderedFrom : List α)

/-- The file name each artifact is saved under (lines 188 and 207). -/
def Artifact.fileName {α : Type} : Artifact α → String
  | Artifact.sampleImages => "sample_images.png"
  | Artifact.generatedAt s _ => "generated_images_at_step_" ++ toString s ++ ".png"

/-- Whether an artifact is the baseline `sample_images.png`. -/
def Artifact.isSample {α : Type} : Artifact α → Bool
  | Artifact.sampleImages => true
  | Artifact.generatedAt _ _ => false

/-- State of `pretrain_generator`: the retained `real_batches`, the
artifacts written so far (in order), the next step index, and the current
generator weights. -/
structure PretrainState (α γ : Type) where
  real_batches : List α
  artifacts : List (Artifact α)
  step : ℕ
  generator : γ

/-- Sampling setup (lines 176-191): unless sampling is disabled, draw
`sample_size // batch_size` batches eagerly via `dataset.take`, retain them
as `real_batches`, and save the baseline `sample_images.png`. -/
def pretrain_setup {α γ : Type} (cfg : PretrainConfig) (sample_draws : ℕ → α)
    (g0 : γ) : PretrainState α γ :=
  if cfg.disable_sampling then
    { real_batches := [], artifacts := [], step := 0, generator := g0 }
  else
    { real_batches := (List.range (cfg.sample_size / cfg.batch_size)).map sample_draws,
      artifacts := [Artifact.sampleImages],
      step := 0,
      generator := g0 }

/-- One iteration of the inner loop (lines 198-208): run `pretrain_step` on
the next batch, then, when `step % pretrain_reporting_steps == 0` and
sampling is enabled, run every retained batch through the generator and save
`generated_images_at_step_{step}.png`. -/
def pretrain_loop_step {α γ : Type} (cfg : PretrainConfig) (epoch_draws : ℕ → α)
    (upd : γ → α → γ) (st : PretrainState α γ) : PretrainState α γ :=
  let g2 := upd st.generator (epoch_draws st.step)
  let arts :=
    if st.step % cfg.pretrain_reporting_steps = 0 ∧ cfg.disable_sampling = false then
      st.artifacts ++ [Artifact.generatedAt st.step st.real_batches]
    else
      st.artifacts
  { real_batches := st.real_batches, artifacts := arts, step := st.step + 1, generator := g2 }

/-- The loop state after sampling setup and `n` training steps of epoch 0. -/
def pretrain_run {α γ : Type} (cfg : PretrainConfig) (sample_draws epoch_draws : ℕ → α)
    (upd : γ → α → γ) (g0 : γ) : ℕ → PretrainState α γ
  | 0 => pretrain_setup cfg sample_draws g0
  | n + 1 => pretrain_loop_step cfg epoch_draws upd
      (pretrain_run cfg sample_draws epoch_draws upd g0 n)

/-! ## Top-level dispatch (`main`, lines 225-235) and the Trainer class body

`main` builds a `Trainer` and then calls methods on it according to `mode`.
Python resolves each method by attribute lookup on the instance/class; a
name the class body does not define raises `AttributeError`. -/

/-- The methods the `class Trainer` body actually defines. -/
def trainer_method_names : List String :=
  ["__init__", "_save_generated_images", "get_dataset", "content_loss",
   "pretrain_step", "pretrain_generator"]

/-- Attribute lookup of a method name on a `Trainer` instance. -/
def trainer_has_method (m : String) : Bool := trainer_method_names.contains m

/-- The method calls `main` issues for each `mode` (lines 228-235). -/
def main_dispatch (mode : String) : List String :=
  if mode = "full" then ["pretrain_generator", "train_gan"]
  else if mode = "pretrain" then ["pretrain_generator"]
  else if mode = "gan" then ["train_gan"]
  else []

/-- Run the dispatch sequence: each call first resolves the attribute, and
the first missing method raises an uncaught `AttributeError`; otherwise the
list of methods successfully invoked is returned. -/
def run_dispatch (mode : String) : Except PyError (List String) :=
  (main_dispatch mode).foldlM
    (fun done m =>
      if trainer_has_method m then Except.ok (done ++ [m])
      else Except.error (PyError.attributeError m))
    []

/-! ## Global-name resolution in `Trainer.__init__` (lines 83-92)

After assigning `self.logger = logging.getLogger(logger_name)`, both
branches of the feature-extractor setup call `logger.info(...)` through the
bare global name `logger` — not `self.logger`.  Python resolves a bare name
not bound locally against the module's globals, raising `NameError` when it
is absent.  The module defines such a global only inside the
`if __name__ == "__main__":` block (line 306), before `main` is called at
line 323. -/

/-- Resolution of a bare global name against the module globals. -/
def resolve_global (globals : List String) (name : String) : Except PyError Unit :=
  if globals.contains name then Except.ok () else Except.error (PyError.nameError name)

/-- The module-level names bound by the script entry point before
`main(**kwargs)` runs at line 323: the imports, the two top-level
definitions, and the names assigned inside the `__main__` block (which
include `logger`, bound at line 306). -/
def script_globals : List String :=
  ["os", "logging", "tf", "glob", "tqdm", "Generator", "VGG19", "np", "mpl",
   "plt", "datetime", "Trainer", "main", "argparse", "sys", "parser", "args",
   "log_lvl", "logger", "formatter", "stdhandler", "kwargs"]

/-- The feature-extractor setup at the end of `Trainer.__init__`
(lines 85-92): whichever branch `ignore_vgg` selects, the first statement
resolves the bare global `logger` for its `logger.info(...)` call; only
after that does the `not ignore_vgg` branch build VGG19 (opaque, modelled
as succeeding). -/
def trainer_init_vgg_setup (ignore_vgg : Bool) (globals : List String) :
    Except PyError Unit :=
  if ignore_vgg = false then
    match resolve_global globals "logger" with
    | Except.error e => Except.error e
    | Except.ok _ => Except.ok ()
  else
    match resolve_global globals "logger" with
    | Except.error e => Except.error e
    | Except.ok _ => Except.ok ()

/-! ## Concrete instances used to witness the theorems below -/

/-- The end-to-end scenario configuration of the spec (§8):
`pretrain_epochs=1`, `batch_size=2`, `sample_size=2`, sampling enabled,
reporting cadence 1. -/
def sample_cfg : PretrainConfig :=
  { disable_sampling := false, sample_size := 2, batch_size := 2,
    pretrain_reporting_steps := 1, pretrain_epochs := 1 }

/-- A concrete batch stream: the `n`-th draw is `n`. -/
def nat_draws : ℕ → ℕ := fun n => n

/-- A concrete opaque generator update over `ℕ` weights. -/
def nat_upd : ℕ → ℕ → ℕ := fun g _ => g + 1

/-- A concrete decoded 2×2 raster with constant pixel value 100. -/
def raw_example : RawImage :=
  { height := 2, width := 2, pixel := fun _ _ _ => (100 : Fin 256) }

/-- Crop offsets that always pick the top-left corner. -/
def crops_example : ℕ → ℕ × ℕ := fun _ => (0, 0)

/-- A concrete batch with all values in `[-1, 1]`. -/
def batch_example : List ℚ := [-1, 0, 1]

/-! ## Helper lemmas for the image pipeline and the dataset stream -/

/-- Every `uint8` pixel lands in `[-1, 1]` after the `/ 127.5 - 1`
rescaling. -/
lemma rescale_pixel_bounds (p : Fin 256) :
    -1 ≤ rescale_pixel p ∧ rescale_pixel p ≤ 1 := by
  have h0 : (0 : ℚ) ≤ (p.val : ℚ) := by positivity
  have h255 : (p.val : ℚ) ≤ 255 := by
    have h := p.isLt
    have h2 : p.val ≤ 255 := by omega
    exact_mod_cast h2
  constructor
  · have hq : (0 : ℚ) ≤ (p.val : ℚ) / 127.5 := by positivity
    unfold rescale_pixel
    linarith
  · have hq : (p.val : ℚ) / 127.5 ≤ 2 := by
      rw [div_le_iff₀ (by norm_num : (0 : ℚ) < 127.5)]
      linarith
    unfold rescale_pixel
    linarith

/-- On a raster at least as large as the crop window, `image_processing`
succeeds and yields an `input_size`-square image with every pixel in
`[-1, 1]`. -/
lemma image_processing_ok_aux (s oh ow : ℕ) (img : RawImage)
    (h1 : s ≤ img.height) (h2 : s ≤ img.width) :
    ∃ out, image_processing s oh ow img = Except.ok out ∧
      out.height = s ∧ out.width = s ∧
      ∀ i j c, -1 ≤ out.pixel i j c ∧ out.pixel i j c ≤ 1 := by
  have hcrop : random_crop s oh ow img =
      Except.ok ⟨s, s, fun i j c => img.pixel (oh + i) (ow + j) c⟩ := by
    unfold random_crop
    rw [if_pos ⟨h1, h2⟩]
  refine ⟨_, by rw [image_processing, hcrop], rfl, rfl, ?_⟩
  intro i j c
  exact rescale_pixel_bounds _

/-- On a raster smaller than the crop window, `image_processing` fails
loudly with TensorFlow's invalid-argument error. -/
lemma image_processing_fails (s oh ow : ℕ) (img : RawImage)
    (h : ¬(s ≤ img.height ∧ s ≤ img.width)) :
    image_processing s oh ow img = Except.error PyError.invalidArgument := by
  have hcrop : random_crop s oh ow img = Except.error PyError.invalidArgument := by
    unfold random_crop
    rw [if_neg h]
  rw [image_processing, hcrop]

/-- With at least one file, all of them at least crop-sized, every element
of the repeated stream is present and is a successfully processed
`input_size`-square image. -/
lemma stream_elem_ok (files : List RawImage) (s : ℕ) (sh : ℕ → ℕ)
    (crops : ℕ → ℕ × ℕ) (hK : files ≠ [])
    (hdim : ∀ f ∈ files, s ≤ f.height ∧ s ≤ f.width) (n : ℕ) :
    ∃ img, stream_elem files s sh crops n = some (Except.ok img) ∧
      img.height = s ∧ img.width = s := by
  have hlen : 0 < files.length := List.length_pos.mpr hK
  have hi : sh n % files.length < files.length := Nat.mod_lt _ hlen
  have hget : files.get? (sh n % files.length) = some (files.get ⟨_, hi⟩) :=
    List.get?_eq_get hi
  have hmem : files.get ⟨_, hi⟩ ∈ files := List.get_mem files _ _
  obtain ⟨out, hout, hh, hw, _⟩ :=
    image_processing_ok_aux s (crops n).1 (crops n).2 (files.get ⟨_, hi⟩)
      (hdim _ hmem).1 (hdim _ hmem).2
  refine ⟨out, ?_, hh, hw⟩
  rw [stream_elem, hget]
  simpa using hout

/-- If every stream element from some point on is a present, successfully
processed image satisfying `P`, draining `k` of them yields a full batch of
`k` images all satisfying `P`. -/
lemma collect_batch_ok (elems : ℕ → Option (Except PyError ProcImage))
    (P : ProcImage → Prop)
    (h : ∀ n, ∃ img, elems n = some (Except.ok img) ∧ P img) :
    ∀ (k start : ℕ), ∃ l, collect_batch elems start k = some (Except.ok l) ∧
      l.length = k ∧ ∀ img ∈ l, P img := by
  intro k
  induction k with
  | zero => exact fun start => ⟨[], rfl, rfl, by simp⟩
  | succ n ih =>
    intro start
    obtain ⟨img, himg, hP⟩ := h start
    obtain ⟨l, hl, hlen, hall⟩ := ih (start + 1)
    refine ⟨img :: l, ?_, by simp [hlen], ?_⟩
    · rw [collect_batch, himg, hl]
    · intro x hx
      rcases List.mem_cons.mp hx with hx | hx
      · exact hx ▸ hP
      · exact hall x hx

/-! ## Helper lemmas for the pretraining state machine -/

/-- After `n` loop iterations, the step counter reads `n`. -/
lemma pretrain_run_step_eq {α γ : Type} (cfg : PretrainConfig)
    (sd ed : ℕ → α) (upd : γ → α → γ) (g0 : γ) (n : ℕ) :
    (pretrain_run cfg sd ed upd g0 n).step = n := by
  induction n with
  | zero =>
    unfold pretrain_run pretrain_setup
    split <;> rfl
  | succ n ih =>
    unfold pretrain_run pretrain_loop_step
    simp [ih]

/-- The retained sample batches never change after sampling setup. -/
lemma pretrain_run_real_batches {α γ : Type} (cfg : PretrainConfig)
    (sd ed : ℕ → α) (upd : γ → α → γ) (g0 : γ) (n : ℕ) :
    (pretrain_run cfg sd ed upd g0 n).real_batches =
      (pretrain_run cfg sd ed upd g0 0).real_batches := by
  induction n with
  | zero => rfl
  | succ n ih =>
    unfold pretrain_run pretrain_loop_step
    simpa using ih

/-- Unfolding of one loop iteration at the artifact level: step `n` appends
a reporting artifact exactly when `n` hits the reporting cadence and
sampling is enabled. -/
lemma pretrain_run_artifacts_succ {α γ : Type} (cfg : PretrainConfig)
    (sd ed : ℕ → α) (upd : γ → α → γ) (g0 : γ) (n : ℕ) :
    (pretrain_run cfg sd ed upd g0 (n + 1)).artifacts =
      (pretrain_run cfg sd ed upd g0 n).artifacts ++
        (if n % cfg.pretrain_reporting_steps = 0 ∧ cfg.disable_sampling = false then
          [Artifact.generatedAt n (pretrain_run cfg sd ed upd g0 n).real_batches]
        else []) := by
  show (pretrain_loop_step cfg ed upd (pretrain_run cfg sd ed upd g0 n)).artifacts = _
  unfold pretrain_loop_step
  rw [pretrain_run_step_eq]
  split
  · rfl
  · simp

/-- With sampling enabled, the setup state holds the eagerly drawn sample
batches and exactly the baseline artifact. -/
lemma pretrain_setup_enabled {α γ : Type} (cfg : PretrainConfig)
    (sd : ℕ → α) (g0 : γ) (hs : cfg.disable_sampling = false) :
    pretrain_setup cfg sd g0 =
      { real_batches := (List.range (cfg.sample_size / cfg.batch_size)).map sd,
        artifacts := [Artifact.sampleImages], step := 0, generator := g0 } := by
  unfold pretrain_setup
  rw [hs]
  simp

/-- With sampling enabled, a reporting artifact for step `s` exists in the
state after `n` iterations exactly when `s` is a past step on the reporting
cadence. -/
lemma pretrain_mem_generated_iff {α γ : Type} (cfg : PretrainConfig)
    (sd ed : ℕ → α) (upd : γ → α → γ) (g0 : γ)
    (hs : cfg.disable_sampling = false) (n s : ℕ) :
    (∃ src, Artifact.generatedAt s src ∈ (pretrain_run cfg sd ed upd g0 n).artifacts) ↔
      (s < n ∧ s % cfg.pretrain_reporting_steps = 0) := by
  induction n with
  | zero =>
    show (∃ src, Artifact.generatedAt s src ∈ (pretrain_setup cfg sd g0).artifacts) ↔ _
    rw [pretrain_setup_enabled cfg sd g0 hs]
    simp
  | succ n ih =>
    rw [pretrain_run_artifacts_succ]
    by_cases hrep : n % cfg.pretrain_reporting_steps = 0
    · rw [if_pos ⟨hrep, hs⟩]
      constructor
      · rintro ⟨src, hsrc⟩
        rcases List.mem_append.mp hsrc with hsrc | hsrc
        · obtain ⟨h1, h2⟩ := ih.mp ⟨src, hsrc⟩
          exact ⟨by omega, h2⟩
        · rcases List.mem_singleton.mp hsrc with h
          obtain ⟨rfl, rfl⟩ : s = n ∧ src = (pretrain_run cfg sd ed upd g0 n).real_batches := by
            cases h
            exact ⟨rfl, rfl⟩
          exact ⟨by omega, hrep⟩
      · rintro ⟨hlt, hmod⟩
        rcases Nat.lt_succ_iff_lt_or_eq.mp hlt with hlt | rfl
        · obtain ⟨src, hsrc⟩ := ih.mpr ⟨hlt, hmod⟩
          exact ⟨src, List.mem_append.mpr (Or.inl hsrc)⟩
        · exact ⟨_, List.mem_append.mpr (Or.inr (List.mem_singleton.mpr rfl))⟩
    · rw [if_neg (by tauto)]
      rw [List.append_nil, ih]
      constructor
      · rintro ⟨hlt, hmod⟩
        exact ⟨by omega, hmod⟩
      · rintro ⟨hlt, hmod⟩
        rcases Nat.lt_succ_iff_lt_or_eq.mp hlt with hlt | rfl
        · exact ⟨hlt, hmod⟩
        · exact absurd hmod hrep

/-- With sampling enabled, the baseline `sample_images.png` artifact appears
exactly once in every reachable state. -/
lemma pretrain_count_sample {α γ : Type} (cfg : PretrainConfig)
    (sd ed : ℕ → α) (upd : γ → α → γ) (g0 : γ)
    (hs : cfg.disable_sampling = false) (n : ℕ) :
    ((pretrain_run cfg sd ed upd g0 n).artifacts.countP
      (fun a => a.isSample)) = 1 := by
  induction n with
  | zero =>
    show ((pretrain_setup cfg sd g0).artifacts.countP _) = 1
    rw [pretrain_setup_enabled cfg sd g0 hs]
    rfl
  | succ n ih =>
    rw [pretrain_run_artifacts_succ, List.countP_append, ih]
    split <;> rfl

/-- Every reporting artifact in any reachable state rendered exactly the
batches retained at sampling setup. -/
lemma pretrain_generated_src {α γ : Type} (cfg : PretrainConfig)
    (sd ed : ℕ → α) (upd : γ → α → γ) (g0 : γ) (n s : ℕ) (src : List α)
    (h : Artifact.generatedAt s src ∈ (pretrain_run cfg sd ed upd g0 n).artifacts) :
    src = (pretrain_run cfg sd ed upd g0 0).real_batches := by
  induction n with
  | zero =>
    revert h
    show Artifact.generatedAt s src ∈ (pretrain_setup cfg sd g0).artifacts → _
    unfold pretrain_setup
    split <;> simp
  | succ n ih =>
    rw [pretrain_run_artifacts_succ] at h
    rcases List.mem_append.mp h with h | h
    · exact ih h
    · revert h
      split
      · intro h
        have h2 := List.mem_singleton.mp h
        rw [Artifact.generatedAt.injEq] at h2
        exact h2.2.trans (pretrain_run_real_batches cfg sd ed upd g0 n)
      · simp

/-- With sampling disabled, no sample batches are drawn and no artifacts are
ever written. -/
lemma pretrain_disabled {α γ : Type} (cfg : PretrainConfig)
    (sd ed : ℕ → α) (upd : γ → α → γ) (g0 : γ)
    (hs : cfg.disable_sampling = true) (n : ℕ) :
    (pretrain_run cfg sd ed upd g0 n).real_batches = [] ∧
      (pretrain_run cfg sd ed upd g0 n).artifacts = [] := by
  induction n with
  | zero =>
    show (pretrain_setup cfg sd g0).real_batches = [] ∧
      (pretrain_setup cfg sd g0).artifacts = []
    unfold pretrain_setup
    rw [hs]
    exact ⟨rfl, rfl⟩
  | succ n ih =>
    refine ⟨?_, ?_⟩
    · rw [pretrain_run_real_batches]
      rw [pretrain_run_real_batches] at ih
      exact ih.1
    · rw [pretrain_run_artifacts_succ, if_neg (by simp [hs]), List.append_nil]
      exact ih.2

/-! ## Helper lemmas for clipping -/

/-- One clipped scalar always lands in `[-1, 1]`. -/
lemma np_clip_bounds (x : ℚ) : -1 ≤ np_clip (-1) 1 x ∧ np_clip (-1) 1 x ≤ 1 := by
  unfold np_clip
  constructor
  · exact le_min (by norm_num) (le_max_left _ _)
  · exact min_le_left _ _

/-- Clipping a scalar twice is the same as clipping it once. -/
lemma np_clip_idem (x : ℚ) : np_clip (-1) 1 (np_clip (-1) 1 x) = np_clip (-1) 1 x := by
  obtain ⟨h1, h2⟩ := np_clip_bounds x
  show min 1 (max (-1) (np_clip (-1) 1 x)) = np_clip (-1) 1 x
  rw [max_eq_right h1, min_eq_right h2]

/-! ## Claim theorems -/

/-- Claim C1, counterexample: with a batch of 10 images and
`num_images_per_row=8` the minimum-row fallback does not trigger (10 is not
below 8), and the render crashes with matplotlib's `ValueError` instead of
rendering all 10 images, because the 1×8 grid has only 8 positions. -/
theorem c1_counterexample :
    ¬(10 < 8) ∧ save_generated_images 10 8 = Except.error PyError.valueError :=
  ⟨by decide, rfl⟩

/-- Claim C1 as amended: for a batch of 10 with `num_images_per_row=8`, the
grid does use exactly 1 row, but via floor division (`10 // 8 = 1`; the
minimum-row else-branch is not taken since `10 ≥ 8`), and the resulting
8-position grid cannot hold 10 images: rendering raises an error at the
ninth image rather than drawing all 10, while a batch of 8 renders fully. -/
theorem c1_grid_layout_amended :
    num_rows 10 8 = 1
    ∧ ¬(10 < 8)
    ∧ save_generated_images 10 8 = Except.error PyError.valueError
    ∧ save_generated_images 8 8 = Except.ok () :=
  ⟨by decide, by decide, rfl, rfl⟩

/-- Claim C2: with sampling enabled and a positive reporting cadence, the
run writes exactly one `sample_images.png`, and writes it before any
training step; step 0 writes a reporting artifact (as `0 % r = 0` for any
positive `r`); and for every step index `s`, a grid artifact named with `s`
exists after `n` steps iff `s < n` and `s` is on the reporting cadence. -/
theorem c2_pretrain_artifact_schedule {α γ : Type} (cfg : PretrainConfig)
    (sd ed : ℕ → α) (upd : γ → α → γ) (g0 : γ)
    (_he : 0 < cfg.pretrain_epochs)
    (_hr : 0 < cfg.pretrain_reporting_steps)
    (hs : cfg.disable_sampling = false) :
    (pretrain_run cfg sd ed upd g0 0).artifacts = [Artifact.sampleImages]
    ∧ (∀ n, ((pretrain_run cfg sd ed upd g0 n).artifacts.countP
        (fun a => a.isSample)) = 1)
    ∧ Artifact.generatedAt 0 ((pretrain_run cfg sd ed upd g0 0).real_batches)
        ∈ (pretrain_run cfg sd ed upd g0 1).artifacts
    ∧ (∀ n s, (∃ src, Artifact.generatedAt s src ∈
          (pretrain_run cfg sd ed upd g0 n).artifacts) ↔
        (s < n ∧ s % cfg.pretrain_reporting_steps = 0))
    ∧ (∀ (s : ℕ) (src : List α), (Artifact.generatedAt s src).fileName =
        "generated_images_at_step_" ++ toString s ++ ".png") := by
  refine ⟨?_, pretrain_count_sample cfg sd ed upd g0 hs, ?_,
    pretrain_mem_generated_iff cfg sd ed upd g0 hs, fun s src => rfl⟩
  · show (pretrain_setup cfg sd g0).artifacts = [Artifact.sampleImages]
    rw [pretrain_setup_enabled cfg sd g0 hs]
  · rw [pretrain_run_artifacts_succ, if_pos ⟨Nat.zero_mod _, hs⟩]
    exact List.mem_append.mpr (Or.inr (List.mem_singleton.mpr rfl))

/-- Claim C2 witness at the spec's end-to-end scenario configuration. -/
theorem c2_pretrain_artifact_schedule_witness :
    (pretrain_run sample_cfg nat_draws nat_draws nat_upd 0 0).artifacts =
      [Artifact.sampleImages]
    ∧ Artifact.generatedAt 0
        ((pretrain_run sample_cfg nat_draws nat_draws nat_upd 0 0).real_batches)
        ∈ (pretrain_run sample_cfg nat_draws nat_draws nat_upd 0 1).artifacts :=
  have h := c2_pretrain_artifact_schedule sample_cfg nat_draws nat_draws nat_upd 0
    (by decide) (by decide) rfl
  ⟨h.1, h.2.2.1⟩

/-- Claim C3: for a directory with at least one image file, all of them at
least crop-sized, the batched stream is total (every batch index is
answered, never an end-of-data signal) and every emitted batch holds exactly
`batch_size` images of spatial extent `input_size × input_size` (the channel
arity 3 is fixed by the pixel type). -/
theorem c3_dataset_stream_total (files : List RawImage)
    (input_size batch_size : ℕ) (sh : ℕ → ℕ) (crops : ℕ → ℕ × ℕ)
    (hK : files ≠ [])
    (hdim : ∀ f ∈ files, input_size ≤ f.height ∧ input_size ≤ f.width) :
    ∀ b, ∃ batch, stream_batch files input_size batch_size sh crops b =
        some (Except.ok batch)
      ∧ batch.length = batch_size
      ∧ ∀ img ∈ batch, img.height = input_size ∧ img.width = input_size := by
  intro b
  have h := collect_batch_ok (stream_elem files input_size sh crops)
    (fun img => img.height = input_size ∧ img.width = input_size)
    (fun n => by
      obtain ⟨img, h1, h2, h3⟩ := stream_elem_ok files input_size sh crops hK hdim n
      exact ⟨img, h1, h2, h3⟩)
    batch_size (batch_size * b)
  exact h

/-- Claim C3 witness: a one-file directory, crop size 1, batch size 2,
materialized past the file count (batch index 5). -/
theorem c3_dataset_stream_total_witness :
    ∃ batch, stream_batch [raw_example] 1 2 id crops_example 5 =
        some (Except.ok batch)
      ∧ batch.length = 2
      ∧ ∀ img ∈ batch, img.height = 1 ∧ img.width = 1 :=
  c3_dataset_stream_total [raw_example] 1 2 id crops_example (by simp)
    (by
      intro f hf
      rw [List.mem_singleton] at hf
      subst hf
      exact ⟨by decide, by decide⟩)
    5

/-- Claim C4: identical inputs yield zero content loss, both in pixel mode
(no feature extractor) and in feature mode (any extractor configured). -/
theorem c4_content_loss_self_zero (vgg : Option (List ℚ → List ℚ))
    (content_lambda : ℚ) (B : List ℚ) :
    content_loss vgg content_lambda B B = 0 := by
  cases vgg with
  | none => simp [content_loss, mae_self]
  | some f => simp [content_loss, mae_self]

/-- Claim C5: the code's `content_loss` equals the spec's formula — the
content λ times the mean absolute difference, taken in feature space when an
extractor is configured and in pixel space otherwise.  Both sides are plain
functions of their arguments, so the computation is pure by construction. -/
theorem c5_content_loss_refines_spec (vgg : Option (List ℚ → List ℚ))
    (content_lambda : ℚ) (x y : List ℚ) :
    content_loss vgg content_lambda x y =
      content_loss_spec vgg content_lambda x y := by
  cases vgg <;> rfl

/-- Claim C6: per-image processing decodes to a 3-channel raster (the
`RawImage`/`Fin 3` input type), random-crops to `input_size × input_size`
failing loudly on undersized rasters, applies the crop-or-pad safety net,
and casts and rescales so that every output pixel lies in `[-1, 1]`. -/
theorem c6_image_processing_pipeline (input_size oh ow : ℕ) (img : RawImage) :
    ((input_size ≤ img.height ∧ input_size ≤ img.width) →
      ∃ out, image_processing input_size oh ow img = Except.ok out
        ∧ out.height = input_size ∧ out.width = input_size
        ∧ ∀ i j c, -1 ≤ out.pixel i j c ∧ out.pixel i j c ≤ 1)
    ∧ (¬(input_size ≤ img.height ∧ input_size ≤ img.width) →
      image_processing input_size oh ow img =
        Except.error PyError.invalidArgument) :=
  ⟨fun h => image_processing_ok_aux input_size oh ow img h.1 h.2,
   fun h => image_processing_fails input_size oh ow img h⟩

/-- Claim C6 witness: a 2×2 raster processed at crop size 1 succeeds with
all pixels in range, and at crop size 5 fails loudly. -/
theorem c6_image_processing_pipeline_witness :
    (∃ out, image_processing 1 0 0 raw_example = Except.ok out
      ∧ out.height = 1 ∧ out.width = 1
      ∧ ∀ i j c, -1 ≤ out.pixel i j c ∧ out.pixel i j c ≤ 1)
    ∧ image_processing 5 0 0 raw_example =
        Except.error PyError.invalidArgument :=
  ⟨(c6_image_processing_pipeline 1 0 0 raw_example).1 (by decide),
   (c6_image_processing_pipeline 5 0 0 raw_example).2 (by decide)⟩

/-- Claim C7: on a batch with all values in `[-1, 1]`, the display
rescaling `(clip(x,-1,1)+1)/2` maps every value into `[0, 1]`, and clipping
is idempotent on every batch. -/
theorem c7_display_rescale (t : List ℚ) :
    ((∀ v ∈ t, -1 ≤ v ∧ v ≤ 1) →
      ∀ w ∈ rescale_for_display t, 0 ≤ w ∧ w ≤ 1)
    ∧ clip_batch (clip_batch t) = clip_batch t := by
  constructor
  · intro _ w hw
    rw [rescale_for_display, List.mem_map] at hw
    obtain ⟨v, _, rfl⟩ := hw
    obtain ⟨h1, h2⟩ := np_clip_bounds v
    constructor <;> linarith
  · rw [clip_batch, clip_batch, List.map_map]
    exact List.map_congr_left (fun v _ => np_clip_idem v)

/-- Claim C7 witness at a concrete batch with values in `[-1, 1]`. -/
theorem c7_display_rescale_witness :
    (∀ w ∈ rescale_for_display batch_example, 0 ≤ w ∧ w ≤ 1)
    ∧ clip_batch (clip_batch batch_example) = clip_batch batch_example :=
  ⟨(c7_display_rescale batch_example).1 (by decide),
   (c7_display_rescale batch_example).2⟩

/-- Claim C8: exactly `sample_size // batch_size` batches are drawn eagerly
before the loop and retained; the retained set is never regenerated or
mutated (every reporting artifact reads exactly the initial set); and with
sampling disabled no batches are drawn and no artifacts are written at
all. -/
theorem c8_sample_set_invariant {α γ : Type} (cfg : PretrainConfig)
    (sd ed : ℕ → α) (upd : γ → α → γ) (g0 : γ) :
    (∀ n, (pretrain_run cfg sd ed upd g0 n).real_batches =
        (pretrain_run cfg sd ed upd g0 0).real_batches)
    ∧ (cfg.disable_sampling = false →
        (pretrain_run cfg sd ed upd g0 0).real_batches =
            (List.range (cfg.sample_size / cfg.batch_size)).map sd
          ∧ (pretrain_run cfg sd ed upd g0 0).real_batches.length =
            cfg.sample_size / cfg.batch_size)
    ∧ (∀ n s src,
        Artifact.generatedAt s src ∈ (pretrain_run cfg sd ed upd g0 n).artifacts →
          src = (pretrain_run cfg sd ed upd g0 0).real_batches)
    ∧ (cfg.disable_sampling = true →
        ∀ n, (pretrain_run cfg sd ed upd g0 n).real_batches = []
          ∧ (pretrain_run cfg sd ed upd g0 n).artifacts = []) := by
  refine ⟨pretrain_run_real_batches cfg sd ed upd g0, ?_,
    fun n s src h => pretrain_generated_src cfg sd ed upd g0 n s src h,
    fun hs n => pretrain_disabled cfg sd ed upd g0 hs n⟩
  intro hs
  have h0 : (pretrain_run cfg sd ed upd g0 0).real_batches =
      (List.range (cfg.sample_size / cfg.batch_size)).map sd := by
    show (pretrain_setup cfg sd g0).real_batches = _
    rw [pretrain_setup_enabled cfg sd g0 hs]
  exact ⟨h0, by rw [h0]; simp⟩

/-- Claim C8 witness at the concrete scenario configuration. -/
theorem c8_sample_set_invariant_witness :
    (pretrain_run sample_cfg nat_draws nat_draws nat_upd 0 3).real_batches =
      (pretrain_run sample_cfg nat_draws nat_draws nat_upd 0 0).real_batches
    ∧ (pretrain_run sample_cfg nat_draws nat_draws nat_upd 0 0).real_batches.length =
      sample_cfg.sample_size / sample_cfg.batch_size :=
  have h := c8_sample_set_invariant sample_cfg nat_draws nat_draws nat_upd 0
  ⟨h.1 3, (h.2.1 rfl).2⟩

/-- Claim C9: the `Trainer` class defines no `train_gan` method, so mode
`gan`, and mode `full` once pretraining returns, terminate with an uncaught
`AttributeError` on `train_gan`, while mode `pretrain` dispatches only to
the defined `pretrain_generator`. -/
theorem c9_train_gan_missing :
    trainer_has_method "train_gan" = false
    ∧ run_dispatch "gan" = Except.error (PyError.attributeError "train_gan")
    ∧ run_dispatch "full" = Except.error (PyError.attributeError "train_gan")
    ∧ run_dispatch "pretrain" = Except.ok ["pretrain_generator"] :=
  ⟨rfl, rfl, rfl, rfl⟩

/-- Claim C10: whichever branch `ignore_vgg` selects, `Trainer.__init__`
resolves the bare global name `logger`; when the module globals lack that
name the constructor raises `NameError`, and it succeeds against the
globals the script entry point has bound (which include `logger`). -/
theorem c10_bare_logger_global (ignore_vgg : Bool) :
    (∀ globals : List String, globals.contains "logger" = false →
      trainer_init_vgg_setup ignore_vgg globals =
        Except.error (PyError.nameError "logger"))
    ∧ trainer_init_vgg_setup ignore_vgg script_globals = Except.ok () := by
  constructor
  · intro gs hgs
    have hgs2 : "logger" ∉ gs := by simpa using hgs
    cases ignore_vgg <;> simp [trainer_init_vgg_setup, resolve_global, hgs2]
  · cases ignore_vgg <;> rfl

/-- Claim C10 witness: empty globals (a bare import context) raise
`NameError`, the script's own globals succeed. -/
theorem c10_bare_logger_global_witness :
    trainer_init_vgg_setup true [] = Except.error (PyError.nameError "logger")
    ∧ trainer_init_vgg_setup false script_globals = Except.ok () :=
  ⟨(c10_bare_logger_global true).1 [] rfl, (c10_bare_logger_global false).2⟩
